import Mathlib

/-!
Verification of the money-transfer system's shard router, resilience
layer and transfer coordinator.

This file gives a shallow embedding, in Lean 4, of the core of the
multi-shard payment repository:

* the MD5-based shard router (`shard_manager_service/main.py`,
  `SimpleShardManager.get_shard_id`, together with the Redis shard-route
  cache from `common/redis_client.py`);
* the retry layer (`common/retry.py`: `calculate_delay`, `retry_async`
  and the shipped `RetryConfig` instances);
* the circuit breaker (`common/circuit_breaker.py`: `CircuitBreaker`
  with `_should_attempt_reset`, `_record_success`, `_record_failure`,
  `call`, and the module-level breaker instances);
* the production transfer path (`SimpleShardManager._execute_transfer`
  and the `transfer_funds` endpoint, including the Redis balance cache);
* the 2PC-style example coordinator
  (`docs/acid_compliant_payment_system.py`, `ACIDShardManager`).

Machine integers are modelled as `Nat`/`Int` with explicit reduction
modulo `2 ^ 32` where the MD5 arithmetic overflows; Python floats are
modelled as rationals (retry delays) or integer seconds (clock values);
fallible operations return explicit result values.
-/

set_option maxRecDepth 100000

namespace MoneyTransfer

/-! ## MD5

`SimpleShardManager.get_shard_id` computes
`int(hashlib.md5(user_id.encode()).hexdigest(), 16) % self.total_shards`.
We embed MD5 on byte lists (account identifiers in this repository are
ASCII, so `String.data`-to-byte conversion is byte-per-char). -/

/-- 2^32, the modulus of MD5's 32-bit arithmetic. -/
def M32 : Nat := 4294967296

/-- Reduce modulo 2^32. -/
def m32 (x : Nat) : Nat := x % M32

/-- 32-bit left rotation (input assumed < 2^32). -/
def rotl32 (x s : Nat) : Nat := m32 (x <<< s) + (x >>> (32 - s))

/-- 32-bit bitwise complement. -/
def not32 (x : Nat) : Nat := x ^^^ 4294967295

/-- MD5 round constants `K[i] = floor(2^32 * |sin(i+1)|)`. -/
def md5K : List Nat :=
  [3614090360, 3905402710, 606105819, 3250441966, 4118548399, 1200080426,
   2821735955, 4249261313, 1770035416, 2336552879, 4294925233, 2304563134,
   1804603682, 4254626195, 2792965006, 1236535329, 4129170786, 3225465664,
   643717713, 3921069994, 3593408605, 38016083, 3634488961, 3889429448,
   568446438, 3275163606, 4107603335, 1163531501, 2850285829, 4243563512,
   1735328473, 2368359562, 4294588738, 2272392833, 1839030562, 4259657740,
   2763975236, 1272893353, 4139469664, 3200236656, 681279174, 3936430074,
   3572445317, 76029189, 3654602809, 3873151461, 530742520, 3299628645,
   4096336452, 1126891415, 2878612391, 4237533241, 1700485571, 2399980690,
   4293915773, 2240044497, 1873313359, 4264355552, 2734768916, 1309151649,
   4149444226, 3174756917, 718787259, 3951481745]

/-- MD5 per-round left-rotation amounts. -/
def md5S : List Nat :=
  [7, 12, 17, 22, 7, 12, 17, 22, 7, 12, 17, 22, 7, 12, 17, 22,
   5, 9, 14, 20, 5, 9, 14, 20, 5, 9, 14, 20, 5, 9, 14, 20,
   4, 11, 16, 23, 4, 11, 16, 23, 4, 11, 16, 23, 4, 11, 16, 23,
   6, 10, 15, 21, 6, 10, 15, 21, 6, 10, 15, 21, 6, 10, 15, 21]

/-- The MD5 nonlinear function and message index for round `i`. -/
def md5FG (i b c d : Nat) : Nat × Nat :=
  if i < 16 then ((b &&& c) ||| (not32 b &&& d), i)
  else if i < 32 then ((d &&& b) ||| (not32 d &&& c), (5 * i + 1) % 16)
  else if i < 48 then (b ^^^ c ^^^ d, (3 * i + 5) % 16)
  else (c ^^^ (b ||| not32 d), (7 * i) % 16)

/-- One MD5 round applied to the working state `(a, b, c, d)`. -/
def md5Round (words : List Nat) (st : Nat × Nat × Nat × Nat) (i : Nat) :
    Nat × Nat × Nat × Nat :=
  let (a, b, c, d) := st
  let (f, g) := md5FG i b c d
  let f' := m32 (f + a + md5K.getD i 0 + words.getD g 0)
  (d, m32 (b + rotl32 f' (md5S.getD i 0)), b, c)

/-- Process one 64-byte chunk: assemble 16 little-endian 32-bit words,
run the 64 rounds and add the result into the running digest state. -/
def md5Chunk (st : Nat × Nat × Nat × Nat) (chunk : List Nat) :
    Nat × Nat × Nat × Nat :=
  let words := (List.range 16).map fun j =>
    chunk.getD (4 * j) 0 + 256 * chunk.getD (4 * j + 1) 0 +
      65536 * chunk.getD (4 * j + 2) 0 + 16777216 * chunk.getD (4 * j + 3) 0
  let (a0, b0, c0, d0) := st
  let (a, b, c, d) := (List.range 64).foldl (md5Round words) st
  (m32 (a0 + a), m32 (b0 + b), m32 (c0 + c), m32 (d0 + d))

/-- MD5 padding: append `0x80`, zero-pad to 56 mod 64, then the original
bit length as a 64-bit little-endian integer. -/
def md5Pad (msg : List Nat) : List Nat :=
  let len := msg.length
  let zeros := (119 - len % 64) % 64
  msg ++ [128] ++ List.replicate zeros 0 ++
    (List.range 8).map fun i => (8 * len) >>> (8 * i) % 256

/-- Serialise the four digest words little-endian into 16 bytes. -/
def md5WordsToBytes (t : Nat × Nat × Nat × Nat) : List Nat :=
  [t.1, t.2.1, t.2.2.1, t.2.2.2].flatMap fun w =>
    (List.range 4).map fun i => w >>> (8 * i) % 256

/-- The 16 digest bytes of MD5 over a byte list. -/
def md5Digest (msg : List Nat) : List Nat :=
  let padded := md5Pad msg
  let nChunks := padded.length / 64
  md5WordsToBytes
    ((List.range nChunks).foldl
      (fun st i => md5Chunk st ((padded.drop (64 * i)).take 64))
      (1732584193, 4023233417, 2562383102, 271733878))

/-- `int(hashlib.md5(s.encode()).hexdigest(), 16)`: the digest bytes read
as one big-endian integer (identifiers in this repository are ASCII). -/
def md5Nat (s : String) : Nat :=
  (md5Digest (s.data.map Char.toNat)).foldl (fun acc b => 256 * acc + b) 0

/-! ## Shard router

`SimpleShardManager.get_shard_id` first consults the Redis shard-route
cache (`redis_client.get_shard_route`); on a miss it computes
`md5(user_id) % total_shards` and caches the result
(`redis_client.cache_shard_route`). The same hash-mod-N computation
appears in `ShardedLedgerService.get_shard_id`
(`sharded_ledger_example.py`). -/

/-- The pure hash-mod-N route: `int(md5(user_id).hexdigest(), 16) % N`. -/
def routeShard (totalShards : Nat) (u : String) : Nat :=
  md5Nat u % totalShards

/-- `SimpleShardManager.get_shard_id` with the shard-route cache made
explicit: a cache hit is returned as-is; a miss computes the hash route
and stores it. Returns the shard id and the updated cache. -/
def get_shard_id (totalShards : Nat) (cache : List (String × Nat))
    (u : String) : Nat × List (String × Nat) :=
  match cache.lookup u with
  | some s => (s, cache)
  | none =>
      let s := routeShard totalShards u
      (s, (u, s) :: cache)

/-! ## Circuit breaker (`common/circuit_breaker.py`)

Python `time.time()` values are modelled as integer seconds and passed
explicitly as `now` (every duration in the shipped configs is a whole
second, and no claim depends on sub-second resolution); within one
`call` the code reads the clock several
times, modelled with the single value `now` (the drift between those
reads plays no role in any claim). The wrapped function's behaviour is
supplied as an `Outcome` (a raised exception and an `asyncio` timeout
both land in the `except` branch and count as `failure`). -/

/-- `CircuitState`. `OPEN` is rendered `open'` (`open` is a Lean keyword). -/
inductive CircuitState where
  | closed
  | open'
  | halfOpen
deriving DecidableEq, Repr

/-- `CircuitBreakerConfig`. -/
structure CircuitBreakerConfig where
  failure_threshold : Nat
  reset_timeout : Int
  success_threshold : Nat
  cbTimeout : Int
deriving DecidableEq, Repr

/-- The mutable fields of `CircuitBreaker` (the constructor sets
`state = CLOSED`, counts `0`, `last_failure_time = 0`,
`last_state_change = time.time()`). -/
structure CircuitBreaker where
  state : CircuitState
  failure_count : Nat
  success_count : Nat
  last_failure_time : Int
  last_state_change : Int
deriving DecidableEq, Repr

/-- `CircuitBreaker.__init__` at clock value `now`. -/
def initBreaker (now : Int) : CircuitBreaker :=
  { state := .closed, failure_count := 0, success_count := 0,
    last_failure_time := 0, last_state_change := now }

/-- `CircuitBreaker._should_attempt_reset`. -/
def shouldAttemptReset (cfg : CircuitBreakerConfig) (now : Int)
    (cb : CircuitBreaker) : Bool :=
  cb.state == .open' && decide (cfg.reset_timeout ≤ now - cb.last_failure_time)

/-- `CircuitBreaker._record_success`. -/
def recordSuccess (cfg : CircuitBreakerConfig) (now : Int)
    (cb : CircuitBreaker) : CircuitBreaker :=
  match cb.state with
  | .halfOpen =>
      let sc := cb.success_count + 1
      if cfg.success_threshold ≤ sc then
        { cb with state := .closed, failure_count := 0, success_count := 0,
                  last_state_change := now }
      else { cb with success_count := sc }
  | .closed => { cb with failure_count := 0 }
  | .open' => cb

/-- `CircuitBreaker._record_failure`. -/
def recordFailure (cfg : CircuitBreakerConfig) (now : Int)
    (cb : CircuitBreaker) : CircuitBreaker :=
  let cb1 := { cb with failure_count := cb.failure_count + 1,
                       last_failure_time := now }
  match cb1.state with
  | .closed =>
      if cfg.failure_threshold ≤ cb1.failure_count then
        { cb1 with state := .open', last_state_change := now }
      else cb1
  | .halfOpen =>
      { cb1 with state := .open', success_count := 0, last_state_change := now }
  | .open' => cb1

/-- The outcome of invoking the wrapped backing function once. -/
inductive Outcome where
  | success
  | failure
deriving DecidableEq, Repr

/-- What `CircuitBreaker.call` does: either it raises
`CircuitBreakerException` without invoking the backing function, or the
backing function is executed (with the given outcome, re-raised on
failure). -/
inductive CallResult where
  | circuitOpenError
  | executed (o : Outcome)
deriving DecidableEq, Repr

/-- The reset check at the top of `CircuitBreaker.call`: enter HALF_OPEN
when the reset timeout has elapsed since the last failure. -/
def attemptResetStep (cfg : CircuitBreakerConfig) (now : Int)
    (cb : CircuitBreaker) : CircuitBreaker :=
  if shouldAttemptReset cfg now cb then
    { cb with state := .halfOpen, success_count := 0, last_state_change := now }
  else cb

/-- `CircuitBreaker.call`: reset check, fail fast while OPEN, otherwise
run the backing function and record its outcome. -/
def cbCall (cfg : CircuitBreakerConfig) (now : Int) (o : Outcome)
    (cb : CircuitBreaker) : CircuitBreaker × CallResult :=
  let cb1 := attemptResetStep cfg now cb
  if cb1.state = .open' then (cb1, .circuitOpenError)
  else
    match o with
    | .success => (recordSuccess cfg now cb1, .executed .success)
    | .failure => (recordFailure cfg now cb1, .executed .failure)

/-- `MYSQL_CB_CONFIG`. -/
def MYSQL_CB_CONFIG : CircuitBreakerConfig :=
  { failure_threshold := 3, reset_timeout := 30, success_threshold := 2,
    cbTimeout := 5 }

/-- `REDIS_CB_CONFIG`. -/
def REDIS_CB_CONFIG : CircuitBreakerConfig :=
  { failure_threshold := 5, reset_timeout := 15, success_threshold := 2,
    cbTimeout := 2 }

/-- `KAFKA_CB_CONFIG`. -/
def KAFKA_CB_CONFIG : CircuitBreakerConfig :=
  { failure_threshold := 3, reset_timeout := 45, success_threshold := 2,
    cbTimeout := 10 }

/-! ### The module-level breaker registry

`common/circuit_breaker.py` creates exactly three module-level instances:
`mysql_circuit_breaker`, `redis_circuit_breaker`, `kafka_circuit_breaker`.
Every database call in `shard_manager_service/main.py` — for any shard —
goes through `mysql_circuit_breaker` (see
`execute_transfer_with_retry`, `get_account_from_shard_with_retry`,
`create_account_in_shard_with_retry`). -/

/-- The guarded resource types that have breaker instances. -/
inductive Resource where
  | mysql
  | redis
  | kafka
deriving DecidableEq, Repr

/-- The three module-level `CircuitBreaker` instances. -/
structure BreakerRegistry where
  mysqlCb : CircuitBreaker
  redisCb : CircuitBreaker
  kafkaCb : CircuitBreaker
deriving DecidableEq, Repr

/-- The registry as created at module import time (clock value `now`). -/
def initRegistry (now : Int) : BreakerRegistry :=
  { mysqlCb := initBreaker now, redisCb := initBreaker now,
    kafkaCb := initBreaker now }

/-- The config each module-level instance is constructed with. -/
def configOf : Resource → CircuitBreakerConfig
  | .mysql => MYSQL_CB_CONFIG
  | .redis => REDIS_CB_CONFIG
  | .kafka => KAFKA_CB_CONFIG

/-- Read a registry instance. -/
def breakerOf (reg : BreakerRegistry) : Resource → CircuitBreaker
  | .mysql => reg.mysqlCb
  | .redis => reg.redisCb
  | .kafka => reg.kafkaCb

/-- Write a registry instance. -/
def setBreaker (reg : BreakerRegistry) : Resource → CircuitBreaker → BreakerRegistry
  | .mysql, cb => { reg with mysqlCb := cb }
  | .redis, cb => { reg with redisCb := cb }
  | .kafka, cb => { reg with kafkaCb := cb }

/-- The breaker instance the shard manager uses for a database call
against shard `shard_id`: `execute_transfer_with_retry` (and every other
shard-database path) calls `mysql_circuit_breaker.call(...)` regardless
of the shard id. -/
def shardDbResource (_shard_id : Nat) : Resource := .mysql

/-- One `call` through the registry against resource `r`. -/
def registryCall (reg : BreakerRegistry) (r : Resource) (now : Int)
    (o : Outcome) : BreakerRegistry × CallResult :=
  let res := cbCall (configOf r) now o (breakerOf reg r)
  (setBreaker reg r res.1, res.2)

/-- One shard-database call through the registry, as wired in
`SimpleShardManager`: the breaker consulted is
`breakerOf reg (shardDbResource shard_id)` — i.e. `mysql_circuit_breaker`
for every shard. -/
def registryShardDbCall (reg : BreakerRegistry) (shard_id : Nat) (now : Int)
    (o : Outcome) : BreakerRegistry × CallResult :=
  registryCall reg (shardDbResource shard_id) now o

/-! ## Retry layer (`common/retry.py`)

Exceptions are modelled as a small taxonomy; every member models a
Python class deriving `Exception`, which is what the membership test
`isinstance(e, exc_type) for exc_type in config.retryable_exceptions`
sees when `retryable_exceptions = [Exception]`. -/

/-- Exception taxonomy. `insufficientFunds` and `accountNotFound` are
business-logic outcomes; `connectionRefused` and `timedOut` are
transient infrastructure faults; `circuitOpen` is
`CircuitBreakerException`. All derive Python's `Exception`. -/
inductive Exc where
  | insufficientFunds
  | accountNotFound
  | connectionRefused
  | timedOut
  | circuitOpen
deriving DecidableEq, Repr

/-- `RetryConfig`; `retryable e` models
`any(isinstance(e, t) for t in retryable_exceptions)`. -/
structure RetryConfig where
  max_attempts : Nat
  base_delay : ℚ
  max_delay : ℚ
  exponential_base : ℚ
  jitter : Bool
  retryable : Exc → Bool

/-- `PAYMENT_RETRY_CONFIG`: `retryable_exceptions = [Exception]`, so the
membership test accepts every modelled exception. -/
def PAYMENT_RETRY_CONFIG : RetryConfig :=
  { max_attempts := 3, base_delay := 1, max_delay := 30,
    exponential_base := 2, jitter := true, retryable := fun _ => true }

/-- `MYSQL_RETRY_CONFIG` (its list is also `[Exception]`: "For now,
retry all exceptions"). -/
def MYSQL_RETRY_CONFIG : RetryConfig :=
  { max_attempts := 3, base_delay := 1/2, max_delay := 10,
    exponential_base := 2, jitter := true, retryable := fun _ => true }

/-- `calculate_delay`; `r` is the value drawn by `random.random()`
(so `0 ≤ r < 1`). -/
def calculate_delay (cfg : RetryConfig) (attempt : Nat) (r : ℚ) : ℚ :=
  let delay := cfg.base_delay * cfg.exponential_base ^ (attempt - 1)
  let delay := min delay cfg.max_delay
  if cfg.jitter then delay * (1/2 + r * (1/2)) else delay

/-- What each attempt of the wrapped function does. -/
inductive AttemptOutcome where
  | ok
  | raised (e : Exc)
deriving DecidableEq, Repr

/-- The observable result of `retry_async`: the value returned or the
exception finally raised, plus the number of attempts actually made. -/
structure RetryResult where
  attempts : Nat
  value : Option Exc  -- `none` = returned normally, `some e` = raised `e`
deriving DecidableEq, Repr

/-- The loop body of `retry_async` over the remaining attempt numbers.
On a non-retryable exception the loop re-raises at once; on the last
attempt it breaks and raises the last exception; otherwise it sleeps
(`calculate_delay`) and retries. -/
def retryGo (cfg : RetryConfig) (trace : Nat → AttemptOutcome) :
    List Nat → RetryResult
  | [] => { attempts := 0, value := none }
  | a :: rest =>
      match trace a with
      | .ok => { attempts := a, value := none }
      | .raised e =>
          if ¬ cfg.retryable e then { attempts := a, value := some e }
          else if rest.isEmpty then { attempts := a, value := some e }
          else retryGo cfg trace rest

/-- `retry_async(func, config)`: attempts are numbered
`1 .. config.max_attempts`; `trace n` is the behaviour of the wrapped
call on attempt `n`. -/
def retry_async (cfg : RetryConfig) (trace : Nat → AttemptOutcome) :
    RetryResult :=
  retryGo cfg trace (List.range' 1 cfg.max_attempts)

/-! ## Per-shard data model

Each MySQL shard holds an `accounts` table (`user_id`, `balance BIGINT` —
balances are `Int`: the schema has no non-negativity constraint and
`UPDATE accounts SET balance = balance - :amount` is unconditional),
an append-only `ledger_entries` table, a `transactions` table (production
path only) and, for the ACID example, a `prepared_transactions` table. -/

/-- Ledger entry direction. -/
inductive Direction where
  | debit
  | credit
deriving DecidableEq, Repr

/-- One row of `ledger_entries` (timestamps omitted: no claim reads them). -/
structure LedgerEntry where
  payment_id : String
  account_id : String
  amount : Int
  direction : Direction
deriving DecidableEq, Repr

/-- Status of a `prepared_transactions` row. -/
inductive PStatus where
  | prepared
  | committed
  | aborted
deriving DecidableEq, Repr

/-- One row of `prepared_transactions` (ACID example). -/
structure PreparedRecord where
  transaction_id : String
  shard_id : Nat
  operation_type : Direction
  user_id : String
  amount : Int
  status : PStatus
deriving DecidableEq, Repr

/-- The committed contents of one shard's database. -/
structure ShardState where
  accounts : List (String × Int)
  ledger : List LedgerEntry
  transactions : List String
  prepared : List PreparedRecord
deriving DecidableEq, Repr

/-- A shard with empty tables. -/
def emptyShard : ShardState :=
  { accounts := [], ledger := [], transactions := [], prepared := [] }

/-- `SELECT balance FROM accounts WHERE user_id = :u` (first match). -/
def getBalance (sh : ShardState) (u : String) : Option Int :=
  sh.accounts.lookup u

/-- `UPDATE accounts SET balance = balance + :delta WHERE user_id = :u` —
updates every matching row, no row created when `u` is absent. -/
def adjustBalance (sh : ShardState) (u : String) (delta : Int) : ShardState :=
  { sh with accounts :=
      sh.accounts.map fun p => if p.1 = u then (p.1, p.2 + delta) else p }

/-- `INSERT INTO accounts ... ON DUPLICATE KEY UPDATE balance = :balance`
(`create_account_in_shard`). -/
def upsertAccount (sh : ShardState) (u : String) (balance : Int) : ShardState :=
  if (sh.accounts.lookup u).isSome then
    { sh with accounts :=
        sh.accounts.map fun p => if p.1 = u then (p.1, balance) else p }
  else { sh with accounts := sh.accounts ++ [(u, balance)] }

/-- Append a ledger entry. -/
def addLedger (sh : ShardState) (e : LedgerEntry) : ShardState :=
  { sh with ledger := sh.ledger ++ [e] }

/-- Apply `f` to shard `i` of the fleet (no-op for an out-of-range id,
which never occurs on the claims' inputs). -/
def updateShard (st : List ShardState) (i : Nat)
    (f : ShardState → ShardState) : List ShardState :=
  st.set i (f (st.getD i emptyShard))

/-- Number of ledger entries across all shards for `pid` with direction
`d` — the audit query behind the one-debit-one-credit invariant. -/
def countEntries (st : List ShardState) (pid : String) (d : Direction) : Nat :=
  (st.map fun sh =>
    (sh.ledger.filter fun e =>
      e.payment_id == pid && e.direction == d).length).sum

/-! ## Production transfer path (`SimpleShardManager._execute_transfer`)

The method opens one session per involved shard, executes the balance
updates and ledger inserts on the sessions, inserts a `transactions` row
on the source session (its own errors swallowed), then runs
`from_session.commit()` followed by `to_session.commit()`. There is no
two-phase commit: each `commit` is a separate local MySQL transaction.
`commitOk i` says whether the local commit on shard `i` succeeds; a
failed commit discards that session's writes (rollback) and raises,
leaving any previously committed session committed. -/

/-- The writes executed on `from_session`: the unconditional debit, the
debit ledger entry and the `transactions` row. -/
def fromSessionOps (fromU : String) (amount : Int) (pid : String)
    (sh : ShardState) : ShardState :=
  let sh := adjustBalance sh fromU (-amount)
  let sh := addLedger sh ⟨pid, fromU, amount, .debit⟩
  { sh with transactions := sh.transactions ++ [pid] }

/-- The writes executed on `to_session`: the unconditional credit and the
credit ledger entry. -/
def toSessionOps (toU : String) (amount : Int) (pid : String)
    (sh : ShardState) : ShardState :=
  let sh := adjustBalance sh toU amount
  addLedger sh ⟨pid, toU, amount, .credit⟩

/-- `_execute_transfer`: shards resolved through the hash route, session
writes, then the two sequential commits. Returns the committed fleet
state and `true` on success / `false` when an exception was raised.
When `commitOk` fails on the source shard nothing is committed; when it
fails on the destination shard after the source commit succeeded, the
debit stays committed and only the credit is rolled back. -/
def executeTransfer (totalShards : Nat) (commitOk : Nat → Bool)
    (st : List ShardState) (fromU toU : String) (amount : Int)
    (pid : String) : List ShardState × Bool :=
  let fs := routeShard totalShards fromU
  let ts := routeShard totalShards toU
  if commitOk fs then
    let st1 := updateShard st fs (fromSessionOps fromU amount pid)
    if commitOk ts then
      (updateShard st1 ts (toSessionOps toU amount pid), true)
    else (st1, false)
  else (st, false)

/-! ## The `transfer_funds` endpoint and its caches

`transfer_funds` checks the sender's balance by calling
`get_account_from_shard`, which serves the Redis-cached balance when one
exists (`redis_client.get_cached_balance`, 5-minute TTL) and caches the
database value otherwise. The sufficient-balance check happens in the
service, on that possibly-cached value, in a separate round trip from
the unconditional debit in `_execute_transfer`. `create_account_in_shard`
writes the database but does not invalidate the balance cache. -/

/-- The shard-manager service state: the shard fleet plus the Redis
balance cache and shard-route cache. -/
structure SvcState where
  shards : List ShardState
  balanceCache : List (String × Int)
  routeCache : List (String × Nat)
deriving DecidableEq, Repr

/-- `get_shard_id` at service level (threads the route cache). -/
def svcGetShardId (totalShards : Nat) (s : SvcState) (u : String) :
    Nat × SvcState :=
  let (sid, rc) := get_shard_id totalShards s.routeCache u
  (sid, { s with routeCache := rc })

/-- `create_account_in_shard`: upsert on the routed shard; the balance
cache is left untouched. -/
def createAccount (totalShards : Nat) (s : SvcState) (u : String)
    (balance : Int) : SvcState :=
  let (sid, s) := svcGetShardId totalShards s u
  { s with shards := updateShard s.shards sid (upsertAccount · u balance) }

/-- Result of `get_account_from_shard`. -/
structure AccountView where
  found : Bool
  balance : Int
deriving DecidableEq, Repr

/-- `get_account_from_shard`: cached balance wins; on a cache miss the
database row is read and its balance cached. -/
def getAccount (totalShards : Nat) (s : SvcState) (u : String) :
    AccountView × SvcState :=
  let (sid, s) := svcGetShardId totalShards s u
  match s.balanceCache.lookup u with
  | some b => ({ found := true, balance := b }, s)
  | none =>
      match getBalance (s.shards.getD sid emptyShard) u with
      | some b =>
          ({ found := true, balance := b },
           { s with balanceCache := (u, b) :: s.balanceCache })
      | none => ({ found := false, balance := 0 }, s)

/-- `redis_client.invalidate_user_cache`: drops the user's balance and
shard-route cache entries. -/
def invalidateUserCache (s : SvcState) (u : String) : SvcState :=
  { s with balanceCache := s.balanceCache.filter (fun p => p.1 ≠ u),
           routeCache := s.routeCache.filter (fun p => p.1 ≠ u) }

/-- The caller-visible outcome of `transfer_funds`. -/
inductive TransferOutcome where
  | ok
  | sourceNotFound
  | destNotFound
  | insufficientBalance
  | failed
deriving DecidableEq, Repr

/-- The `transfer_funds` endpoint (authentication, rate limiting and the
dollars-to-cents conversion stripped: `amountCents` is the converted
amount, already validated positive). Fetches both accounts (through the
balance cache), rejects on a missing account, rejects when the fetched
— possibly cached — sender balance is below the amount, then runs
`_execute_transfer` and invalidates both users' caches. -/
def transfer_funds (totalShards : Nat) (commitOk : Nat → Bool)
    (s : SvcState) (fromU toU : String) (amountCents : Int)
    (pid : String) : SvcState × TransferOutcome :=
  let (fromRes, s) := getAccount totalShards s fromU
  let (toRes, s) := getAccount totalShards s toU
  if !fromRes.found then (s, .sourceNotFound)
  else if !toRes.found then (s, .destNotFound)
  else if fromRes.balance < amountCents then (s, .insufficientBalance)
  else
    let (shards', okT) :=
      executeTransfer totalShards commitOk s.shards fromU toU amountCents pid
    if okT then
      let s := { s with shards := shards' }
      let s := invalidateUserCache s fromU
      (invalidateUserCache s toU, .ok)
    else ({ s with shards := shards' }, .failed)

/-! ## The 2PC example coordinator (`docs/acid_compliant_payment_system.py`)

`ACIDShardManager.execute_acid_transfer` stores a `TransactionState` in
the in-memory `transaction_log` (overwriting any entry under the same
id — the id is never looked up first), runs the prepare phase, then
commit or abort, and in its `finally` block deletes the log entry before
returning.

Modelling notes, each faithful to the source:
* `ACIDShardManager` calls `self.get_shard_id(...)` but the class never
  defines that method; every sibling implementation
  (`SimpleShardManager.get_shard_id`, `ShardedLedgerService.get_shard_id`)
  and the spec's router algorithm compute `md5(user_id) % total_shards`,
  so the model uses `routeShard` with the class's `total_shards = 4`.
* `_prepare_shard_transaction` executes `SELECT ... FOR UPDATE` checks
  and inserts a `prepared_transactions` row but never calls
  `session.commit()`; `session.close()` in its `finally` rolls the
  insert back, so prepare contributes only the vote.
* The demo lock stubs `_acquire_shard_lock` / `_release_shard_lock`
  always return `True`; the model runs in the claims' failure-free
  session regime, where each `session.commit()` in the commit and abort
  helpers succeeds. -/

/-- `TransactionPhase`. -/
inductive TransactionPhase where
  | preparing
  | prepared
  | committing
  | committed
  | aborting
  | aborted
deriving DecidableEq, Repr

/-- The ACID manager's state: the shard fleet plus the coordinator's
in-memory `transaction_log`. -/
structure AcidState where
  shards : List ShardState
  txLog : List (String × TransactionPhase)
deriving DecidableEq, Repr

/-- `self.total_shards = 4` in `ACIDShardManager.__init__`. -/
def acidTotalShards : Nat := 4

/-- `participants = list(set([from_shard_id, to_shard_id]))`. -/
def acidParticipants (fs ts : Nat) : List Nat :=
  if fs = ts then [fs] else [fs, ts]

/-- The vote of `_prepare_shard_transaction` on shard `sid`: the debit
participant requires an existing sender row with sufficient balance, the
credit participant requires the recipient row to exist. -/
def acidPrepareVote (sh : ShardState) (fs ts : Nat) (fromU toU : String)
    (amount : Int) (sid : Nat) : Bool :=
  if sid = fs then
    match getBalance sh fromU with
    | some b => decide (amount ≤ b)
    | none => false
  else if sid = ts then (getBalance sh toU).isSome
  else true

/-- `_commit_shard_transaction` on shard `sid`: apply the debit or
credit plus its ledger entry, and mark matching
`prepared_transactions` rows COMMITTED. -/
def acidCommitShard (fs ts : Nat) (fromU toU : String) (amount : Int)
    (pid : String) (sid : Nat) (sh : ShardState) : ShardState :=
  let sh :=
    if sid = fs then
      addLedger (adjustBalance sh fromU (-amount)) ⟨pid, fromU, amount, .debit⟩
    else if sid = ts then
      addLedger (adjustBalance sh toU amount) ⟨pid, toU, amount, .credit⟩
    else sh
  { sh with prepared := sh.prepared.map fun p =>
      if p.transaction_id = pid ∧ p.shard_id = sid then
        { p with status := .committed }
      else p }

/-- `_abort_shard_transaction` on shard `sid`: mark matching
`prepared_transactions` rows ABORTED (balances and ledgers untouched). -/
def acidAbortShard (pid : String) (sid : Nat) (sh : ShardState) : ShardState :=
  { sh with prepared := sh.prepared.map fun p =>
      if p.transaction_id = pid ∧ p.shard_id = sid then
        { p with status := .aborted }
      else p }

/-- The terminal answer of `execute_acid_transfer`. -/
structure AcidResult where
  phase : TransactionPhase
  success : Bool
deriving DecidableEq, Repr

/-- `execute_acid_transfer`: log the transaction (overwrite), collect
the prepare votes, commit on unanimous yes and abort otherwise, then —
in the `finally` block — delete the log entry, so no terminal result is
ever retained under the transfer id. -/
def execute_acid_transfer (st : AcidState) (fromU toU : String)
    (amount : Int) (pid : String) : AcidState × AcidResult :=
  let fs := routeShard acidTotalShards fromU
  let ts := routeShard acidTotalShards toU
  let participants := acidParticipants fs ts
  let votes := participants.all fun sid =>
    acidPrepareVote (st.shards.getD sid emptyShard) fs ts fromU toU amount sid
  let shards' :=
    if votes then
      participants.foldl
        (fun acc sid => updateShard acc sid
          (acidCommitShard fs ts fromU toU amount pid sid)) st.shards
    else
      participants.foldl
        (fun acc sid => updateShard acc sid (acidAbortShard pid sid)) st.shards
  let log' := st.txLog.filter fun p => p.1 ≠ pid
  ({ shards := shards', txLog := log' },
   if votes then { phase := .committed, success := true }
   else { phase := .aborted, success := false })

/-! ## Concrete scenario states

`md5("alice") % 4 = 0` and `md5("eve") % 4 = 2`: a cross-shard pair
(shards 0 and 2), matching the spec's concrete scenario shape. -/

/-- A four-shard fleet: `alice` (balance 1000 cents) on shard 0, `eve`
(balance 500) on shard 2. -/
def demoFleet : List ShardState :=
  [{ emptyShard with accounts := [("alice", 1000)] }, emptyShard,
   { emptyShard with accounts := [("eve", 500)] }, emptyShard]

/-- C1 failing input: destination-shard commit (shard 2) fails after the
source-shard commit (shard 0) succeeded. -/
def c1CommitOk : Nat → Bool := fun i => decide (i = 0)

/-- The run of `_execute_transfer` on the C1 failing input. -/
def c1Run : List ShardState × Bool :=
  executeTransfer 4 c1CommitOk demoFleet "alice" "eve" 300 "p1"

/-- C2 failing input, step by step: create `alice` with 1000; read her
account (caching balance 1000); re-create `alice` with balance 100
(`create_account_in_shard` does not invalidate the balance cache);
create `eve` with 0. -/
def c2Svc : SvcState :=
  let s0 : SvcState :=
    { shards := [emptyShard, emptyShard, emptyShard, emptyShard],
      balanceCache := [], routeCache := [] }
  let s1 := createAccount 4 s0 "alice" 1000
  let s2 := (getAccount 4 s1 "alice").2
  let s3 := createAccount 4 s2 "alice" 100
  createAccount 4 s3 "eve" 0

/-- The run of `transfer_funds` on the C2 failing input: alice (database
balance 100, cached balance 1000) sends 500 to eve; every commit
succeeds. -/
def c2Run : SvcState × TransferOutcome :=
  transfer_funds 4 (fun _ => true) c2Svc "alice" "eve" 500 "p2"

/-- Initial ACID-coordinator state over the demo fleet, empty log. -/
def acidInit : AcidState := { shards := demoFleet, txLog := [] }

/-- First `execute_acid_transfer` call: alice sends 300 to eve, id `p3`. -/
def c3Run1 : AcidState × AcidResult :=
  execute_acid_transfer acidInit "alice" "eve" 300 "p3"

/-- The duplicate call: same transfer id `p3`, same payload. -/
def c3Run2 : AcidState × AcidResult :=
  execute_acid_transfer c3Run1.1 "alice" "eve" 300 "p3"

/-- C9 input: the module-level registry after three failed database
calls against shard 2 (at clock values 1, 2, 3). -/
def c9Reg3 : BreakerRegistry :=
  (registryShardDbCall
    ((registryShardDbCall
      ((registryShardDbCall (initRegistry 0) 2 1 .failure).1)
      2 2 .failure).1)
    2 3 .failure).1

/-! ## Helper lemmas on lists -/

theorem getD_set_self {α : Type} (a d : α) :
    ∀ (l : List α) (i : Nat), i < l.length → (l.set i a).getD i d = a := by
  intro l
  induction l with
  | nil => intro i h; simp at h
  | cons x xs ih =>
      intro i h
      cases i with
      | zero => rfl
      | succ j => exact ih j (by simpa using h)

theorem getD_set_ne {α : Type} (a d : α) :
    ∀ (l : List α) (i j : Nat), i ≠ j → (l.set i a).getD j d = l.getD j d := by
  intro l
  induction l with
  | nil => intro i j _; rfl
  | cons x xs ih =>
      intro i j hij
      cases i with
      | zero =>
          cases j with
          | zero => exact absurd rfl hij
          | succ k => rfl
      | succ i' =>
          cases j with
          | zero => rfl
          | succ k => exact ih i' k (fun h => hij (by rw [h]))

theorem getD_len_le {α : Type} (d : α) :
    ∀ (l : List α) (i : Nat), l.length ≤ i → l.getD i d = d := by
  intro l
  induction l with
  | nil => intro i _; rfl
  | cons x xs ih =>
      intro i h
      cases i with
      | zero => simp at h
      | succ j => exact ih j (by simpa using h)

theorem lookup_map_update {α β : Type} [BEq α] [LawfulBEq α] [DecidableEq α] (u : α) (g : β → β) :
    ∀ l : List (α × β),
      (l.map fun p => if p.1 = u then (p.1, g p.2) else p).lookup u =
        (l.lookup u).map g := by
  intro l
  induction l with
  | nil => rfl
  | cons p ps ih =>
      obtain ⟨k, v⟩ := p
      by_cases h : k = u
      · subst h
        show List.lookup k ((if k = k then (k, g v) else (k, v)) ::
          (ps.map fun p => if p.1 = k then (p.1, g p.2) else p)) = _
        rw [if_pos rfl]
        simp [List.lookup, ih]
      · have hk : (u == k) = false := by
          simp only [beq_eq_false_iff_ne]; exact Ne.symm h
        show List.lookup u ((if k = u then (k, g v) else (k, v)) ::
          (ps.map fun p => if p.1 = u then (p.1, g p.2) else p)) = _
        rw [if_neg h]
        simp [List.lookup, hk, ih]

theorem lookup_map_update_ne {α β : Type} [BEq α] [LawfulBEq α] [DecidableEq α]
    (u v : α) (hvu : v ≠ u) (g : β → β) :
    ∀ l : List (α × β),
      (l.map fun p => if p.1 = u then (p.1, g p.2) else p).lookup v =
        l.lookup v := by
  intro l
  induction l with
  | nil => rfl
  | cons p ps ih =>
      obtain ⟨k, v'⟩ := p
      by_cases h : k = u
      · subst h
        have hk : (v == k) = false := by
          simp only [beq_eq_false_iff_ne]; exact hvu
        show List.lookup v ((if k = k then (k, g v') else (k, v')) ::
          (ps.map fun p => if p.1 = k then (p.1, g p.2) else p)) = _
        rw [if_pos rfl]
        simp [List.lookup, hk, ih]
      · show List.lookup v ((if k = u then (k, g v') else (k, v')) ::
          (ps.map fun p => if p.1 = u then (p.1, g p.2) else p)) = _
        rw [if_neg h]
        by_cases hvk : v = k
        · subst hvk; simp [List.lookup]
        · have hk : (v == k) = false := by
            simp only [beq_eq_false_iff_ne]; exact hvk
          simp [List.lookup, hk, ih]

theorem lookup_filter_ne {α β : Type} [BEq α] [LawfulBEq α] [DecidableEq α] (u : α) :
    ∀ l : List (α × β), (l.filter fun p => p.1 ≠ u).lookup u = none := by
  intro l
  induction l with
  | nil => rfl
  | cons p ps ih =>
      obtain ⟨k, v⟩ := p
      rw [List.filter_cons]
      by_cases h : k = u
      · subst h
        simpa using ih
      · have hdec : (decide ¬((k, v).1 = u)) = true := by
          simp [h]
        rw [if_pos hdec]
        have hk : (u == k) = false := by
          simp only [beq_eq_false_iff_ne]; exact Ne.symm h
        simp only [List.lookup, hk]
        exact ih

theorem map_updateShard {β : Type} (g : ShardState → β) (f : ShardState → ShardState)
    (hf : ∀ sh, g (f sh) = g sh) :
    ∀ (st : List ShardState) (i : Nat), (updateShard st i f).map g = st.map g := by
  intro st
  induction st with
  | nil => intro i; rfl
  | cons x xs ih =>
      intro i
      cases i with
      | zero => simp [updateShard, List.set, hf]
      | succ j =>
          have hrw : updateShard (x :: xs) (j + 1) f = x :: updateShard xs j f := by
            simp [updateShard, List.set]
          rw [hrw]
          simp [ih j]

/-! ## Digest width -/

theorem foldl_base256_lt :
    ∀ (l : List Nat) (acc : Nat), (∀ b ∈ l, b < 256) →
      l.foldl (fun a b => 256 * a + b) acc < (acc + 1) * 256 ^ l.length := by
  intro l
  induction l with
  | nil => intro acc _; simp
  | cons x xs ih =>
      intro acc h
      have hx : x < 256 := h x (by simp)
      have hxs : ∀ b ∈ xs, b < 256 := fun b hb => h b (by simp [hb])
      calc (x :: xs).foldl (fun a b => 256 * a + b) acc
          = xs.foldl (fun a b => 256 * a + b) (256 * acc + x) := rfl
        _ < (256 * acc + x + 1) * 256 ^ xs.length := ih (256 * acc + x) hxs
        _ ≤ (256 * (acc + 1)) * 256 ^ xs.length :=
            Nat.mul_le_mul (by omega) le_rfl
        _ = (acc + 1) * 256 ^ (x :: xs).length := by
            simp [List.length_cons, pow_succ]; ring

theorem md5WordsToBytes_lt (t : Nat × Nat × Nat × Nat) :
    ∀ b ∈ md5WordsToBytes t, b < 256 := by
  intro b hb
  simp only [md5WordsToBytes, List.mem_flatMap, List.mem_map,
    List.mem_range] at hb
  obtain ⟨w, _, i, _, rfl⟩ := hb
  exact Nat.mod_lt _ (by norm_num)

theorem md5Nat_lt_2_pow_128 (s : String) : md5Nat s < 2 ^ 128 := by
  have hbound : ∀ b ∈ md5Digest (s.data.map Char.toNat), b < 256 := by
    intro b hb
    exact md5WordsToBytes_lt _ b hb
  have hlen : (md5Digest (s.data.map Char.toNat)).length = 16 := rfl
  have h1 := foldl_base256_lt (md5Digest (s.data.map Char.toNat)) 0 hbound
  rw [hlen] at h1
  have h2 : (0 + 1) * 256 ^ 16 = 2 ^ 128 := by norm_num
  rw [h2] at h1
  exact h1

/-! ## The claims -/

/-- Claim C5, counterexample: the claim says a cached route that
disagrees with the hash function never wins over recomputation. But
`get_shard_id` returns a cache hit as-is: with `md5("alice") % 4 = 0`
and a cache entry routing `alice` to shard 1, the router answers 1, not
the hash value 0. -/
theorem c5_cached_route_wins_over_hash :
    get_shard_id 4 [("alice", 1)] "alice" = (1, [("alice", 1)]) ∧
    routeShard 4 "alice" = 0 ∧
    ¬ (get_shard_id 4 [("alice", 1)] "alice").1 = routeShard 4 "alice" := by
  refine ⟨by decide, by decide, by decide⟩

/-- Claim C5, amended: on a cache miss the router resolves the account
to the 128-bit MD5 digest of the identifier reduced modulo the shard
count and caches that value; on a cache hit the cached value is
returned without recomputation — so a cached value that disagrees with
the hash function wins over it. -/
theorem c5_amended_router_cache (N : Nat) (cache : List (String × Nat))
    (u : String) :
    (cache.lookup u = none →
      get_shard_id N cache u = (routeShard N u, (u, routeShard N u) :: cache)) ∧
    (∀ s, cache.lookup u = some s → get_shard_id N cache u = (s, cache)) ∧
    md5Nat u < 2 ^ 128 := by
  refine ⟨?_, ?_, md5Nat_lt_2_pow_128 u⟩
  · intro h; simp [get_shard_id, h]
  · intro s h; simp [get_shard_id, h]

/-- Witness for the amended C5 theorem at a concrete input: an empty
cache resolves `alice` through the hash and caches the result. -/
theorem c5_amended_witness :
    get_shard_id 4 [] "alice" =
      (routeShard 4 "alice", [("alice", routeShard 4 "alice")]) :=
  (c5_amended_router_cache 4 [] "alice").1 rfl

/-- Claim C10: for every attempt number `n ≥ 1`, the computed backoff
delay equals `min(base_delay * multiplier^(n-1), max_delay)` scaled by a
jitter factor `0.5 + r/2` lying in `[0.5, 1.0]`, where `r` is the value
drawn by `random.random()` (so `0 ≤ r < 1`). -/
theorem c10_backoff_delay_formula (cfg : RetryConfig) (n : Nat) (r : ℚ)
    (_hn : 1 ≤ n) (hj : cfg.jitter = true) (h0 : 0 ≤ r) (h1 : r < 1) :
    calculate_delay cfg n r =
      min (cfg.base_delay * cfg.exponential_base ^ (n - 1)) cfg.max_delay *
        (1/2 + r * (1/2)) ∧
    1/2 ≤ 1/2 + r * (1/2) ∧ 1/2 + r * (1/2) ≤ 1 := by
  refine ⟨by simp [calculate_delay, hj], by linarith, by linarith⟩

/-- Witness for C10 at the payment config, attempt 2, `r = 1/4`. -/
theorem c10_witness :
    calculate_delay PAYMENT_RETRY_CONFIG 2 (1/4) =
      min (PAYMENT_RETRY_CONFIG.base_delay *
          PAYMENT_RETRY_CONFIG.exponential_base ^ (2 - 1))
        PAYMENT_RETRY_CONFIG.max_delay * (1/2 + (1/4) * (1/2)) :=
  (c10_backoff_delay_formula PAYMENT_RETRY_CONFIG 2 (1/4) (by norm_num) rfl
    (by norm_num) (by norm_num)).1

/-- Claim C6, counterexample: the claim says a business-logic failure
such as insufficient funds propagates on the first attempt with no
retries. But the wired config (`PAYMENT_RETRY_CONFIG`, used by
`execute_transfer_with_retry`) lists `Exception` as retryable, so a call
that keeps raising the insufficient-funds error is attempted all 3
times, not once. -/
theorem c6_business_error_is_retried :
    retry_async PAYMENT_RETRY_CONFIG (fun _ => .raised .insufficientFunds) =
      { attempts := 3, value := some .insufficientFunds } ∧
    ¬ (retry_async PAYMENT_RETRY_CONFIG
        (fun _ => .raised .insufficientFunds)).attempts = 1 := by
  refine ⟨by decide, by decide⟩

/-- Claim C6, amended: `retry_async` propagates a failure immediately on
the first attempt, with no retry, exactly when the exception matches no
entry of `config.retryable_exceptions`; but every shipped config —
`PAYMENT_RETRY_CONFIG` included — lists `Exception`, which every
modelled exception matches, so business-logic failures raised inside the
wrapped call are retried like transient faults. -/
theorem c6_amended_retry_semantics :
    (∀ (cfg : RetryConfig) (trace : Nat → AttemptOutcome) (e : Exc),
        cfg.retryable e = false → 1 ≤ cfg.max_attempts →
        trace 1 = .raised e →
        retry_async cfg trace = { attempts := 1, value := some e }) ∧
    (∀ e : Exc, PAYMENT_RETRY_CONFIG.retryable e = true) := by
  constructor
  · intro cfg trace e hr hm ht
    unfold retry_async
    obtain ⟨k, hk⟩ : ∃ k, cfg.max_attempts = k + 1 :=
      ⟨cfg.max_attempts - 1, by omega⟩
    rw [hk]
    show retryGo cfg trace (1 :: List.range' 2 k) = _
    simp [retryGo, ht, hr]
  · intro e; rfl

/-- Witness for the amended C6 theorem: under a config that does not
list the insufficient-funds error as retryable, the first raise
propagates at attempt 1. -/
theorem c6_amended_witness :
    retry_async
      { max_attempts := 3, base_delay := 1, max_delay := 30,
        exponential_base := 2, jitter := true,
        retryable := fun e => decide (e ≠ .insufficientFunds) }
      (fun _ => .raised .insufficientFunds) =
      { attempts := 1, value := some .insufficientFunds } :=
  c6_amended_retry_semantics.1 _ _ .insufficientFunds (by decide)
    (by norm_num) rfl

/-- Claim C9, counterexample: the claim says failures against one
shard's database leave the breaker used for every other shard's
database unchanged. But all shard-database calls share the single
module-level `mysql_circuit_breaker`: after three failed calls against
shard 2 the breaker consulted for shard 0 is OPEN with
`failure_count = 3`, and a shard-0 call fails fast with the
circuit-open error. -/
theorem c9_shared_mysql_breaker_across_shards :
    (breakerOf c9Reg3 (shardDbResource 0)).state = .open' ∧
    (breakerOf c9Reg3 (shardDbResource 0)).failure_count = 3 ∧
    ¬ breakerOf c9Reg3 (shardDbResource 0) =
        breakerOf (initRegistry 0) (shardDbResource 0) ∧
    (registryShardDbCall c9Reg3 0 4 .success).2 = .circuitOpenError := by
  refine ⟨by decide, by decide, by decide, by decide⟩

/-- Claim C9, amended: there is one breaker instance per resource type
(`mysql`, `redis`, `kafka`), not per shard: the shard id plays no role
in breaker selection, so every shard's database shares the mysql
breaker; breakers are independent only across resource types — a call
against one resource leaves the other resources' breakers unchanged. -/
theorem c9_amended_per_resource_breakers :
    (∀ s s' : Nat, shardDbResource s = shardDbResource s') ∧
    (∀ (reg : BreakerRegistry) (r r' : Resource) (now : Int) (o : Outcome),
        r ≠ r' → breakerOf (registryCall reg r now o).1 r' = breakerOf reg r') := by
  constructor
  · intro s s'; rfl
  · intro reg r r' now o hne
    cases r <;> cases r' <;> first | exact absurd rfl hne | rfl

/-- Witness for the amended C9 theorem: a mysql failure leaves the
kafka breaker untouched. -/
theorem c9_amended_witness :
    breakerOf (registryCall (initRegistry 0) .mysql 1 .failure).1 .kafka =
      breakerOf (initRegistry 0) .kafka :=
  c9_amended_per_resource_breakers.2 (initRegistry 0) .mysql .kafka 1 .failure
    (by decide)

/-- Claim C7: the circuit breaker's state changes only along the
specified edges — in CLOSED a success resets the consecutive-failure
count and a failure opens the breaker exactly when the count reaches
`failure_threshold`; the reset step moves OPEN to HALF_OPEN exactly when
`reset_timeout` has elapsed since the last failure and touches no other
state; in HALF_OPEN a success closes the breaker exactly when
`success_threshold` consecutive successes are reached, and any failure
returns it to OPEN at once (restarting the success count). -/
theorem c7_circuit_breaker_transition_edges (cfg : CircuitBreakerConfig)
    (cb : CircuitBreaker) (now : Int) :
    (cb.state = .closed →
      (recordSuccess cfg now cb).state = .closed ∧
      (recordSuccess cfg now cb).failure_count = 0) ∧
    (cb.state = .closed →
      ((recordFailure cfg now cb).state = .open' ↔
        cfg.failure_threshold ≤ cb.failure_count + 1)) ∧
    (cb.state = .closed →
      (recordFailure cfg now cb).state = .open' ∨
      (recordFailure cfg now cb).state = .closed) ∧
    (cb.state = .open' →
      ((attemptResetStep cfg now cb).state = .halfOpen ↔
        cfg.reset_timeout ≤ now - cb.last_failure_time)) ∧
    (¬ cb.state = .open' → attemptResetStep cfg now cb = cb) ∧
    (cb.state = .halfOpen →
      ((recordSuccess cfg now cb).state = .closed ↔
        cfg.success_threshold ≤ cb.success_count + 1)) ∧
    (cb.state = .halfOpen → ¬ cfg.success_threshold ≤ cb.success_count + 1 →
      (recordSuccess cfg now cb).state = .halfOpen) ∧
    (cb.state = .halfOpen →
      (recordFailure cfg now cb).state = .open' ∧
      (recordFailure cfg now cb).success_count = 0) := by
  obtain ⟨s, fc, sc, lf, lsc⟩ := cb
  cases s <;>
    simp [recordSuccess, recordFailure, attemptResetStep,
      shouldAttemptReset] <;>
    split_ifs <;> simp_all

/-- Witness for C7: in CLOSED with 2 prior consecutive failures under
the mysql config (threshold 3), a third failure opens the breaker. -/
theorem c7_witness :
    (recordFailure MYSQL_CB_CONFIG 10
      { state := .closed, failure_count := 2, success_count := 0,
        last_failure_time := 0, last_state_change := 0 }).state = .open' :=
  ((c7_circuit_breaker_transition_edges MYSQL_CB_CONFIG
      { state := .closed, failure_count := 2, success_count := 0,
        last_failure_time := 0, last_state_change := 0 } 10).2.1
    rfl).mpr (by norm_num [MYSQL_CB_CONFIG])

/-- Claim C8: while the breaker is OPEN and `reset_timeout` has not yet
elapsed since the last failure, `call` raises the circuit-open error
immediately, the backing function is never invoked (the result is
`circuitOpenError` for every possible backing outcome), and the breaker
state is left unchanged. -/
theorem c8_open_circuit_fails_fast (cfg : CircuitBreakerConfig)
    (cb : CircuitBreaker) (now : Int) (o : Outcome)
    (h1 : cb.state = .open')
    (h2 : now - cb.last_failure_time < cfg.reset_timeout) :
    cbCall cfg now o cb = (cb, .circuitOpenError) := by
  have hr : shouldAttemptReset cfg now cb = false := by
    simp [shouldAttemptReset, h1]
    omega
  unfold cbCall attemptResetStep
  rw [hr]
  simp [h1]

/-- Witness for C8: mysql breaker, opened at time 100, called at time
110 (10 s elapsed, below the 30 s reset timeout). -/
theorem c8_witness :
    cbCall MYSQL_CB_CONFIG 110 .success
      { state := .open', failure_count := 3, success_count := 0,
        last_failure_time := 100, last_state_change := 100 } =
      ({ state := .open', failure_count := 3, success_count := 0,
         last_failure_time := 100, last_state_change := 100 },
       .circuitOpenError) :=
  c8_open_circuit_fails_fast MYSQL_CB_CONFIG
    { state := .open', failure_count := 3, success_count := 0,
      last_failure_time := 100, last_state_change := 100 } 110 .success rfl
    (by norm_num [MYSQL_CB_CONFIG])

/-- Claim C1 (code bug): the claim says a transfer execution never
commits a debit entry on one shard without the matching credit on the
other. `_execute_transfer` commits the two shards with two separate
local commits and no prepare phase: on the failing input — cross-shard
transfer `alice → eve` of 300 where the destination-shard commit fails
after the source-shard commit succeeded — the committed state holds one
debit ledger entry for `p1` and no credit entry, with alice already
debited (700) and eve unchanged (500). -/
theorem c1_cross_shard_commit_failure_loses_credit :
    c1Run.2 = false ∧
    countEntries c1Run.1 "p1" .debit = 1 ∧
    countEntries c1Run.1 "p1" .credit = 0 ∧
    getBalance (c1Run.1.getD 0 emptyShard) "alice" = some 700 ∧
    getBalance (c1Run.1.getD 2 emptyShard) "eve" = some 500 := by
  refine ⟨by decide, by decide, by decide, by decide, by decide⟩

/-- Claim C2 (code bug): the claim says the sufficient-balance check and
the debit happen atomically under a row lock, so no committed state
shows a negative balance. `transfer_funds` checks the balance returned
by `get_account_from_shard` — which serves the Redis-cached value — in a
separate round trip from the unconditional `UPDATE ... balance - amount`
in `_execute_transfer`, with no lock and no conditional. On the failing
input, alice's database balance is 100 but her cached balance is a stale
1000 (`create_account_in_shard` never invalidates the balance cache),
so a 500-cent transfer passes the check and commits a balance of -400. -/
theorem c2_stale_cached_balance_negative_commit :
    getBalance (c2Svc.shards.getD 0 emptyShard) "alice" = some 100 ∧
    c2Svc.balanceCache.lookup "alice" = some 1000 ∧
    c2Run.2 = .ok ∧
    getBalance (c2Run.1.shards.getD 0 emptyShard) "alice" = some (-400) := by
  refine ⟨by decide, by decide, by decide, by decide⟩

/-- Claim C4: when the debit participant of a cross-shard ACID transfer
votes no because of insufficient funds, the transaction ends ABORTED and
every shard's account balances and ledger are exactly as before. -/
theorem c4_insufficient_funds_abort (st : AcidState) (fromU toU : String)
    (amount : Int) (pid : String) (b : Int)
    (hshard : routeShard acidTotalShards fromU ≠ routeShard acidTotalShards toU)
    (hb : getBalance
      (st.shards.getD (routeShard acidTotalShards fromU) emptyShard) fromU =
        some b)
    (hlt : b < amount) :
    (execute_acid_transfer st fromU toU amount pid).2 =
      { phase := .aborted, success := false } ∧
    (execute_acid_transfer st fromU toU amount pid).1.shards.map
      (fun sh => sh.accounts) = st.shards.map (fun sh => sh.accounts) ∧
    (execute_acid_transfer st fromU toU amount pid).1.shards.map
      (fun sh => sh.ledger) = st.shards.map (fun sh => sh.ledger) := by
  have hvote : acidPrepareVote
      (st.shards.getD (routeShard acidTotalShards fromU) emptyShard)
      (routeShard acidTotalShards fromU) (routeShard acidTotalShards toU)
      fromU toU amount (routeShard acidTotalShards fromU) = false := by
    simp [acidPrepareVote, getBalance] at hb ⊢
    rw [hb]
    simpa using by omega
  have hvotes : (acidParticipants (routeShard acidTotalShards fromU)
      (routeShard acidTotalShards toU)).all
      (fun sid => acidPrepareVote (st.shards.getD sid emptyShard)
        (routeShard acidTotalShards fromU) (routeShard acidTotalShards toU)
        fromU toU amount sid) = false := by
    simp only [acidParticipants, if_neg hshard, List.all_cons, List.all_nil,
      hvote, Bool.false_and]
  unfold execute_acid_transfer
  simp only [hvotes, Bool.false_eq_true, if_false]
  refine ⟨by trivial, ?_, ?_⟩
  · simp only [acidParticipants, if_neg hshard, List.foldl_cons,
      List.foldl_nil]
    rw [map_updateShard (fun sh => sh.accounts)
          (acidAbortShard pid (routeShard acidTotalShards toU))
          (fun sh => rfl),
        map_updateShard (fun sh => sh.accounts)
          (acidAbortShard pid (routeShard acidTotalShards fromU))
          (fun sh => rfl)]
  · simp only [acidParticipants, if_neg hshard, List.foldl_cons,
      List.foldl_nil]
    rw [map_updateShard (fun sh => sh.ledger)
          (acidAbortShard pid (routeShard acidTotalShards toU))
          (fun sh => rfl),
        map_updateShard (fun sh => sh.ledger)
          (acidAbortShard pid (routeShard acidTotalShards fromU))
          (fun sh => rfl)]

/-- Witness for C4: alice (balance 1000, shard 0) cannot send 5000 to
eve (shard 2): the ACID transfer aborts. -/
theorem c4_witness :
    (execute_acid_transfer acidInit "alice" "eve" 5000 "p4").2 =
      { phase := .aborted, success := false } :=
  (c4_insufficient_funds_abort acidInit "alice" "eve" 5000 "p4" 1000
    (by decide) (by decide) (by decide)).1

/-- Claim C3, counterexample: the claim says a repeated `executeTransfer`
with a transfer id already seen returns the stored terminal result and
leaves the ledger entries for that id unchanged. But the coordinator
never looks the id up, and deletes its log entry before returning: after
the first `alice → eve` transfer of 300 under id `p3` the log holds
nothing for `p3`, and the duplicate call re-executes — the ledger ends
with two debits and two credits for `p3` and alice is debited twice
(1000 → 700 → 400). -/
theorem c3_duplicate_transfer_reexecutes :
    c3Run1.1.txLog.lookup "p3" = none ∧
    countEntries c3Run1.1.shards "p3" .debit = 1 ∧
    countEntries c3Run1.1.shards "p3" .credit = 1 ∧
    countEntries c3Run2.1.shards "p3" .debit = 2 ∧
    countEntries c3Run2.1.shards "p3" .credit = 2 ∧
    getBalance (c3Run2.1.shards.getD 0 emptyShard) "alice" = some 400 ∧
    ¬ countEntries c3Run2.1.shards "p3" .debit =
        countEntries c3Run1.1.shards "p3" .debit := by
  refine ⟨by decide, by decide, by decide, by decide, by decide, by decide,
    by decide⟩

/-- Helper for the amended C3 theorem: the committed effect of one
successful cross-shard `execute_acid_transfer` — COMMITTED result,
exactly one debit entry appended on the source shard and one credit
entry on the destination shard, the source balance debited, the
destination account still present, and no log entry retained under the
transfer id. -/
theorem acid_commit_effect (st : AcidState) (fromU toU : String)
    (amount : Int) (pid : String) (b : Int)
    (hshard : routeShard acidTotalShards fromU ≠ routeShard acidTotalShards toU)
    (hb : getBalance
      (st.shards.getD (routeShard acidTotalShards fromU) emptyShard) fromU =
        some b)
    (hba : amount ≤ b)
    (hc : (getBalance
      (st.shards.getD (routeShard acidTotalShards toU) emptyShard) toU).isSome
        = true) :
    (execute_acid_transfer st fromU toU amount pid).2 =
      { phase := .committed, success := true } ∧
    ((execute_acid_transfer st fromU toU amount pid).1.shards.getD
        (routeShard acidTotalShards fromU) emptyShard).ledger =
      (st.shards.getD (routeShard acidTotalShards fromU) emptyShard).ledger ++
        [⟨pid, fromU, amount, .debit⟩] ∧
    ((execute_acid_transfer st fromU toU amount pid).1.shards.getD
        (routeShard acidTotalShards toU) emptyShard).ledger =
      (st.shards.getD (routeShard acidTotalShards toU) emptyShard).ledger ++
        [⟨pid, toU, amount, .credit⟩] ∧
    getBalance ((execute_acid_transfer st fromU toU amount pid).1.shards.getD
      (routeShard acidTotalShards fromU) emptyShard) fromU =
        some (b - amount) ∧
    (getBalance ((execute_acid_transfer st fromU toU amount pid).1.shards.getD
      (routeShard acidTotalShards toU) emptyShard) toU).isSome = true ∧
    (execute_acid_transfer st fromU toU amount pid).1.txLog.lookup pid =
      none := by
  have hts_ne : routeShard acidTotalShards toU ≠ routeShard acidTotalShards fromU :=
    Ne.symm hshard
  have hfs_lt : routeShard acidTotalShards fromU < st.shards.length := by
    by_contra hcon
    push_neg at hcon
    rw [getD_len_le emptyShard st.shards _ hcon] at hb
    simp [getBalance, emptyShard] at hb
  have hts_lt : routeShard acidTotalShards toU < st.shards.length := by
    by_contra hcon
    push_neg at hcon
    rw [getD_len_le emptyShard st.shards _ hcon] at hc
    simp [getBalance, emptyShard] at hc
  have hvfs : acidPrepareVote
      (st.shards.getD (routeShard acidTotalShards fromU) emptyShard)
      (routeShard acidTotalShards fromU) (routeShard acidTotalShards toU)
      fromU toU amount (routeShard acidTotalShards fromU) = true := by
    unfold acidPrepareVote
    rw [if_pos rfl, hb]
    simp [hba]
  have hvts : acidPrepareVote
      (st.shards.getD (routeShard acidTotalShards toU) emptyShard)
      (routeShard acidTotalShards fromU) (routeShard acidTotalShards toU)
      fromU toU amount (routeShard acidTotalShards toU) = true := by
    unfold acidPrepareVote
    rw [if_neg hts_ne, if_pos rfl]
    exact hc
  have hvotes : ((acidParticipants (routeShard acidTotalShards fromU)
      (routeShard acidTotalShards toU)).all
      (fun sid => acidPrepareVote (st.shards.getD sid emptyShard)
        (routeShard acidTotalShards fromU) (routeShard acidTotalShards toU)
        fromU toU amount sid)) = true := by
    simp only [acidParticipants, if_neg hshard, List.all_cons, List.all_nil,
      hvfs, hvts, Bool.and_true]
  unfold execute_acid_transfer
  simp only [hvotes, eq_self_iff_true, if_true]
  simp only [acidParticipants, if_neg hshard, List.foldl_cons,
    List.foldl_nil]
  have hgetfs : (updateShard (updateShard st.shards
        (routeShard acidTotalShards fromU)
        (acidCommitShard (routeShard acidTotalShards fromU)
          (routeShard acidTotalShards toU) fromU toU amount pid
          (routeShard acidTotalShards fromU)))
        (routeShard acidTotalShards toU)
        (acidCommitShard (routeShard acidTotalShards fromU)
          (routeShard acidTotalShards toU) fromU toU amount pid
          (routeShard acidTotalShards toU))).getD
        (routeShard acidTotalShards fromU) emptyShard =
      acidCommitShard (routeShard acidTotalShards fromU)
        (routeShard acidTotalShards toU) fromU toU amount pid
        (routeShard acidTotalShards fromU)
        (st.shards.getD (routeShard acidTotalShards fromU) emptyShard) := by
    unfold updateShard
    rw [getD_set_ne _ _ _ _ _ hts_ne, getD_set_self _ _ _ _ hfs_lt]
  have hgetts : (updateShard (updateShard st.shards
        (routeShard acidTotalShards fromU)
        (acidCommitShard (routeShard acidTotalShards fromU)
          (routeShard acidTotalShards toU) fromU toU amount pid
          (routeShard acidTotalShards fromU)))
        (routeShard acidTotalShards toU)
        (acidCommitShard (routeShard acidTotalShards fromU)
          (routeShard acidTotalShards toU) fromU toU amount pid
          (routeShard acidTotalShards toU))).getD
        (routeShard acidTotalShards toU) emptyShard =
      acidCommitShard (routeShard acidTotalShards fromU)
        (routeShard acidTotalShards toU) fromU toU amount pid
        (routeShard acidTotalShards toU)
        (st.shards.getD (routeShard acidTotalShards toU) emptyShard) := by
    unfold updateShard
    rw [getD_set_self _ _ _ _ (by simpa using hts_lt),
        getD_set_ne _ _ _ _ _ hshard]
  rw [hgetfs, hgetts]
  have hledfs : ∀ sh : ShardState,
      (acidCommitShard (routeShard acidTotalShards fromU)
        (routeShard acidTotalShards toU) fromU toU amount pid
        (routeShard acidTotalShards fromU) sh).ledger =
      sh.ledger ++ [⟨pid, fromU, amount, .debit⟩] := by
    intro sh
    simp [acidCommitShard, addLedger, adjustBalance]
  have hledts : ∀ sh : ShardState,
      (acidCommitShard (routeShard acidTotalShards fromU)
        (routeShard acidTotalShards toU) fromU toU amount pid
        (routeShard acidTotalShards toU) sh).ledger =
      sh.ledger ++ [⟨pid, toU, amount, .credit⟩] := by
    intro sh
    simp [acidCommitShard, addLedger, adjustBalance, hts_ne]
  have haccfs : ∀ sh : ShardState,
      getBalance (acidCommitShard (routeShard acidTotalShards fromU)
        (routeShard acidTotalShards toU) fromU toU amount pid
        (routeShard acidTotalShards fromU) sh) fromU =
      (sh.accounts.lookup fromU).map (fun x => x + (-amount)) := by
    intro sh
    simp only [acidCommitShard, if_pos rfl, getBalance, addLedger,
      adjustBalance]
    exact lookup_map_update fromU (fun x => x + (-amount)) sh.accounts
  have haccts : ∀ sh : ShardState,
      getBalance (acidCommitShard (routeShard acidTotalShards fromU)
        (routeShard acidTotalShards toU) fromU toU amount pid
        (routeShard acidTotalShards toU) sh) toU =
      (sh.accounts.lookup toU).map (fun x => x + amount) := by
    intro sh
    simp only [acidCommitShard, if_neg hts_ne, if_pos rfl, getBalance,
      addLedger, adjustBalance]
    exact lookup_map_update toU (fun x => x + amount) sh.accounts
  refine ⟨by trivial, hledfs _, hledts _, ?_, ?_, ?_⟩
  · rw [haccfs]
    simp only [getBalance] at hb
    rw [hb]
    simp [sub_eq_add_neg]
  · rw [haccts]
    simp only [getBalance] at hc
    simpa using hc
  · exact lookup_filter_ne pid st.txLog

/-- Claim C3, amended: the coordinator keeps no usable idempotency
record — the transaction-log entry is overwritten on entry and deleted
before the call returns, and the log is never consulted — so a second
`executeTransfer` with the same transfer id and payload re-executes the
transfer in full: when both calls commit, the source is debited a second
time and a second debit/credit ledger-entry pair is appended under the
same transfer id. -/
theorem c3_amended_duplicate_call (st : AcidState) (fromU toU : String)
    (amount : Int) (pid : String) (b : Int)
    (hshard : routeShard acidTotalShards fromU ≠ routeShard acidTotalShards toU)
    (hb : getBalance
      (st.shards.getD (routeShard acidTotalShards fromU) emptyShard) fromU =
        some b)
    (hpos : 0 < amount) (h2 : amount + amount ≤ b)
    (hc : (getBalance
      (st.shards.getD (routeShard acidTotalShards toU) emptyShard) toU).isSome
        = true) :
    (execute_acid_transfer st fromU toU amount pid).2 =
      { phase := .committed, success := true } ∧
    (execute_acid_transfer st fromU toU amount pid).1.txLog.lookup pid =
      none ∧
    (execute_acid_transfer (execute_acid_transfer st fromU toU amount pid).1
      fromU toU amount pid).2 = { phase := .committed, success := true } ∧
    ((execute_acid_transfer (execute_acid_transfer st fromU toU amount pid).1
        fromU toU amount pid).1.shards.getD
        (routeShard acidTotalShards fromU) emptyShard).ledger =
      (st.shards.getD (routeShard acidTotalShards fromU) emptyShard).ledger ++
        [⟨pid, fromU, amount, .debit⟩] ++ [⟨pid, fromU, amount, .debit⟩] ∧
    ((execute_acid_transfer (execute_acid_transfer st fromU toU amount pid).1
        fromU toU amount pid).1.shards.getD
        (routeShard acidTotalShards toU) emptyShard).ledger =
      (st.shards.getD (routeShard acidTotalShards toU) emptyShard).ledger ++
        [⟨pid, toU, amount, .credit⟩] ++ [⟨pid, toU, amount, .credit⟩] ∧
    getBalance ((execute_acid_transfer
      (execute_acid_transfer st fromU toU amount pid).1
        fromU toU amount pid).1.shards.getD
        (routeShard acidTotalShards fromU) emptyShard) fromU =
      some (b - amount - amount) := by
  have hba : amount ≤ b := by linarith
  obtain ⟨e1, e2, e3, e4, e5, e6⟩ :=
    acid_commit_effect st fromU toU amount pid b hshard hb hba hc
  have hba1 : amount ≤ b - amount := by linarith
  obtain ⟨f1, f2, f3, f4, f5, f6⟩ :=
    acid_commit_effect (execute_acid_transfer st fromU toU amount pid).1
      fromU toU amount pid (b - amount) hshard e4 hba1 e5
  refine ⟨e1, e6, f1, ?_, ?_, f4⟩
  · rw [f2, e2]
  · rw [f3, e3]

/-- Witness for the amended C3 theorem on the demo fleet: the first call
commits. -/
theorem c3_amended_witness :
    (execute_acid_transfer acidInit "alice" "eve" 300 "p3").2 =
      { phase := .committed, success := true } :=
  (c3_amended_duplicate_call acidInit "alice" "eve" 300 "p3" 1000
    (by decide) (by decide) (by decide) (by decide) (by decide)).1

end MoneyTransfer
